import Mathlib

/-!
Verification of the etiquette PT-700 label printer driver.

This file shallowly embeds the driver code of `pt700/pt700.go` and
`pt700/status.go` (latest snapshot each, unless a claim cites an earlier
snapshot, in which case the function of that snapshot is embedded under its own
name), together with the `monochrome.Image` bitmap type from the package
monochrome chunk of `cmd/etiquette/main.go`.  Device I/O is modelled by an explicit state: a trace of emitted
events (each `write` call, the post-reset drain, and each status-read
attempt) plus a queue of incoming 32-byte status replies.  An empty reply
queue models the 10-second read deadline expiring.  Write system calls are
modelled as always succeeding, since no claim concerns write failures.
-/

/-- One observable event of the driver: a single `write` call with its exact
bytes, the drain performed by `reset`, or one `readStatus` attempt recorded
with the status kind it expects. -/
inductive Ev where
  | write (bs : List Nat)
  | drain
  | wait (expected : Nat)
deriving DecidableEq

/-- Device-facing state: the trace of events so far and the queue of
status replies the device will deliver to subsequent reads. -/
structure PState where
  out : List Ev
  replies : List (List Nat)
deriving DecidableEq

/-- Append one write event to the trace (the `write` method of the driver,
which always writes the full buffer). -/
def wr (bs : List Nat) (s : PState) : PState :=
  { s with out := s.out ++ [Ev.write bs] }

/-- Status decoded from a 32-byte reply, fields of `pt700.Status`. -/
structure Status where
  err1 : Nat
  err2 : Nat
  mediaWidth : Nat
  mediaType : Nat
  type : Nat
  phase : Nat
deriving DecidableEq

/-- Field extraction of `readStatus`: offsets 8, 9, 10, 11, 18, 19 of the
32-byte reply buffer. -/
def decodeStatus (resp : List Nat) : Status :=
  { err1 := resp.getD 8 0
    err2 := resp.getD 9 0
    mediaWidth := resp.getD 10 0
    mediaType := resp.getD 11 0
    type := resp.getD 18 0
    phase := resp.getD 19 0 }

/-- Errors the embedded driver can return (the Go code returns wrapped
`error` strings; we keep them as structured values).  indexOutOfRange is
not a returned Go error: it models the run-time abort of an out-of-range
slice index in the rasterLine pin loop. -/
inductive Err where
  | unknownWidth
  | badWidth (want : Nat) (got : Int)
  | tooShort (minLen : Nat) (got : Int)
  | deviceErr1 (e : Nat)
  | deviceErr2 (e : Nat)
  | statusMismatch (expected : Nat) (got : Status)
  | readTimeout
  | indexOutOfRange
deriving DecidableEq

/-- Decidable equality for Except values, so concrete driver runs can be
settled by decide. -/
instance {ε α : Type} [DecidableEq ε] [DecidableEq α] : DecidableEq (Except ε α) :=
  fun a b =>
    match a, b with
    | Except.ok x, Except.ok y =>
      if h : x = y then Decidable.isTrue (congrArg Except.ok h)
      else Decidable.isFalse (by intro hh; cases hh; exact h rfl)
    | Except.error x, Except.error y =>
      if h : x = y then Decidable.isTrue (congrArg Except.error h)
      else Decidable.isFalse (by intro hh; cases hh; exact h rfl)
    | Except.ok _, Except.error _ => Decidable.isFalse (by intro hh; cases hh)
    | Except.error _, Except.ok _ => Decidable.isFalse (by intro hh; cases hh)

/-- StatusType constants of status.go (iota order). -/
def StatusReplyToRequest : Nat := 0

/-- StatusPrintingCompleted constant of status.go. -/
def StatusPrintingCompleted : Nat := 1

/-- StatusPhaseChange constant of status.go. -/
def StatusPhaseChange : Nat := 6

/-- MediaWidth.pixels of status.go: pixel span of the print head used by a
known tape width; unknown widths are an error. -/
def pixels (w : Nat) : Except Err Nat :=
  if w = 4 then Except.ok 24
  else if w = 6 then Except.ok 32
  else if w = 9 then Except.ok 50
  else if w = 12 then Except.ok 70
  else if w = 18 then Except.ok 112
  else if w = 24 then Except.ok 128
  else Except.error Err.unknownWidth

/-- Go image.Rectangle as four coordinates (Min.X, Min.Y, Max.X, Max.Y). -/
structure Rect where
  minX : Int
  minY : Int
  maxX : Int
  maxY : Int
deriving DecidableEq

/-- MediaWidth.MinBounds of status.go.  Note the source returns
`image.Rectangle{}, nil` in its error branch: the error from `pixels` is
checked but a nil error is returned with the zero rectangle. -/
def MinBounds (w : Nat) : Except Err Rect :=
  match pixels w with
  | Except.error _ => Except.ok ⟨0, 0, 0, 0⟩
  | Except.ok width => Except.ok ⟨0, 0, 172, width⟩

/-- MediaWidth.unusedPins of status.go: pins skipped on either edge to
center narrow tape; the printerPins parameter is accepted but the source
uses the literal 128. -/
def unusedPins (w : Nat) (printerPins : Nat) : Except Err Nat :=
  match pixels w with
  | Except.error e => Except.error e
  | Except.ok width => Except.ok ((128 - width) / 2)

/-- Modelled from the spec: `MediaWidth.Dx` is called by checkImgs and Info
but its definition is missing from src/.  Per the media-width table of the spec
it is the print-head pixel span for the width, failing on unknown widths,
i.e. the same table as `pixels`. -/
def MediaWidth.Dx (w : Nat) : Except Err Nat :=
  pixels w

/-- Modelled from the spec: `MediaWidth.MinDy` is called by checkImgs and
Info but its definition is missing from src/.  Per the spec it is the
minimum printable length in pixels, matching the 172-pixel minimum length
of MinBounds; the call sites show it returns a plain int with no error. -/
def MediaWidth.MinDy (w : Nat) : Nat :=
  172

/-- The monochrome.Image type of package monochrome (second chunk of
src/cmd/etiquette/main.go, lines 67-122): black data on a white
background, wrapping a Go image.Paletted whose palette is
[White, Black].  The wrapped Paletted is embedded as its bounds rectangle
plus the stored palette index for every in-bounds coordinate (the Pix
array; its row-major memory layout is not observable through the methods
the driver uses). -/
structure MImage where
  bounds : Rect
  pix : Int → Int → Nat

/-- monochrome.Image.ColorIndexAt, which delegates to
image.Paletted.ColorIndexAt of the Go standard library: if the point is
not in the bounds rectangle the index 0 (white) is returned, otherwise
the stored pixel index. -/
def MImage.ColorIndexAt (m : MImage) (x y : Int) : Nat :=
  if m.bounds.minX ≤ x ∧ x < m.bounds.maxX ∧ m.bounds.minY ≤ y ∧ y < m.bounds.maxY then
    m.pix x y
  else 0

/-- monochrome.Image.BlackAt of src/cmd/etiquette/main.go: the palette
index at (x, y) equals 1. -/
def MImage.BlackAt (m : MImage) (x y : Int) : Bool :=
  m.ColorIndexAt x y == 1

/-- Bounds().Dx() of a bitmap. -/
def MImage.Dx (img : MImage) : Int :=
  img.bounds.maxX - img.bounds.minX

/-- Bounds().Dy() of a bitmap. -/
def MImage.Dy (img : MImage) : Int :=
  img.bounds.maxY - img.bounds.minY

/-- pagePos bit flags of pt700.go: middle = 0, first = 1 shl 1, last = 1
shl 2 (iota is 1 on the `first` line and 2 on the `last` line). -/
def pagePos.middle : Nat := 0

/-- pagePos first flag (value 2, see pagePos.middle). -/
def pagePos.first : Nat := 2

/-- pagePos last flag (value 4, see pagePos.middle). -/
def pagePos.last : Nat := 4

/-- checkImgs page loop: width must equal the media pixel span exactly and
height must reach the minimum printable length. -/
def checkImgsLoop (dx minDy : Nat) : List MImage → Except Err Unit
  | [] => Except.ok ()
  | img :: rest =>
    if img.Dx ≠ (dx : Int) then Except.error (Err.badWidth dx img.Dx)
    else if img.Dy < (minDy : Int) then Except.error (Err.tooShort minDy img.Dy)
    else checkImgsLoop dx minDy rest

/-- checkImgs of pt700.go: validates every page against the media
geometry before anything is printed. -/
def checkImgs (width : Nat) (imgs : List MImage) : Except Err Unit :=
  match MediaWidth.Dx width with
  | Except.error e => Except.error e
  | Except.ok dx => checkImgsLoop dx (MediaWidth.MinDy width) imgs

/-- Sequencing helper: run the second step only if the first returned ok,
threading the device state (the state at the error is kept). -/
def andThen {α β : Type} (r : Except Err α × PState)
    (f : α → PState → Except Err β × PState) : Except Err β × PState :=
  match r with
  | (Except.error e, s) => (Except.error e, s)
  | (Except.ok a, s) => f a s

/-- readStatus of pt700.go: read one 32-byte reply (an empty queue models
the 10s deadline expiring), decode it, and fail unless the decoded status
kind equals the expected one; the mismatch error carries both. -/
def readStatus (expected : Nat) (s : PState) : Except Err Status × PState :=
  let s1 : PState := { s with out := s.out ++ [Ev.wait expected] }
  match s1.replies with
  | [] => (Except.error Err.readTimeout, s1)
  | resp :: rest =>
    let st := decodeStatus resp
    if st.type = expected then (Except.ok st, { s1 with replies := rest })
    else (Except.error (Err.statusMismatch expected st), { s1 with replies := rest })

/-- Status.Err of status.go: a non-zero err1 (then err2) bit set is a
device-reported error. -/
def Status.Err (st : Status) : Except Err Unit :=
  if st.err1 ≠ 0 then Except.error (Err.deviceErr1 st.err1)
  else if st.err2 ≠ 0 then Except.error (Err.deviceErr2 st.err2)
  else Except.ok ()

/-- Go uint32 conversion of an int (two-complement truncation). -/
def u32 (n : Int) : Nat :=
  (n % (2 ^ 32 : Int)).toNat

/-- binary.LittleEndian.AppendUint32: four little-endian bytes. -/
def le32 (n : Nat) : List Nat :=
  [n % 256, n / 256 % 256, n / 65536 % 256, n / 16777216 % 256]

/-- The print-information command bytes built by printPage: header, flags,
media width, raster line count (the bitmap height) and the
starting-page/continuation flag (0 on the first page, else 1). -/
def infoBytes (width pos : Nat) (img : MImage) : List Nat :=
  [0x1B, 0x69, 0x7A, 0x84, 0x00, width, 0x00] ++ le32 (u32 img.Dy) ++
    [if pos &&& pagePos.first ≠ 0 then 0x00 else 0x01, 0x00]

/-- The print command byte chosen by printPage: print-and-feed 0x1A on the
last page, plain print 0x0C otherwise. -/
def printCmdByte (pos : Nat) : Nat :=
  if pos &&& pagePos.last ≠ 0 then 0x1A else 0x0C

/-- The row indices visited by the printRaster loop
`for y := Max.Y; y > Min.Y; y--`, in visit order. -/
def rasterRows (minY maxY : Int) : List Int :=
  (List.range (maxY - minY).toNat).map (fun (i : Nat) => maxY - (i : Int))

/-- Integer interval [lo, hi) as a list, the x-range of rasterLine. -/
def intRange (lo hi : Int) : List Int :=
  (List.range (hi - lo).toNat).map (fun (i : Nat) => lo + (i : Int))

/-- One pin update of rasterLine:
`line[byt] = line[byt] | (1 shl 7) shr bit` with byt = pin / 8 and
bit = pin mod 8.  The Go index expression aborts the program with an
index-out-of-range run-time error when byt falls outside the 16-byte
line, i.e. when pin is 128 or more: none models that abort. -/
def setPin (line : List Nat) (pin : Nat) : Option (List Nat) :=
  if pin / 8 < line.length then
    some (line.set (pin / 8) (line.getD (pin / 8) 0 ||| ((1 <<< 7) >>> (pin % 8))))
  else none

/-- One iteration of the rasterLine pin loop: a black pixel sets its pin
bit (none once the loop has aborted or when the update aborts); white
pixels touch nothing; the pin advances once per pixel either way. -/
def pinStep (img : MImage) (y : Int) (acc : Option (List Nat × Nat)) (x : Int) :
    Option (List Nat × Nat) :=
  match acc with
  | none => none
  | some st =>
    match (if img.BlackAt x y then setPin st.1 st.2 else some st.1) with
    | none => none
    | some line => some (line, st.2 + 1)

/-- The 16-byte packed pin line of rasterLine for row y, starting at pin
offset pin0; none when some black pixel falls outside the 128 pins and
the Go loop would abort. -/
def rasterLineBytes (pin0 : Nat) (img : MImage) (y : Int) : Option (List Nat) :=
  ((intRange img.bounds.minX img.bounds.maxX).foldl (pinStep img y)
    (some (List.replicate 16 0, pin0))).map (fun st => st.1)

/-- The unchecked pin-loop iteration, used only to describe the line
rasterLineBytes computes when nothing aborts. -/
def pinStepOk (img : MImage) (y : Int) (acc : List Nat × Nat) (x : Int) :
    List Nat × Nat :=
  ((if img.BlackAt x y then
      acc.1.set (acc.2 / 8) (acc.1.getD (acc.2 / 8) 0 ||| ((1 <<< 7) >>> (acc.2 % 8)))
    else acc.1), acc.2 + 1)

/-- The line rasterLineBytes computes on an aborting-free row;
rasterLineBytes_eq_some proves the two agree whenever pin0 plus the
bitmap width stays within the 128 pins. -/
def packedLine (pin0 : Nat) (img : MImage) (y : Int) : List Nat :=
  ((intRange img.bounds.minX img.bounds.maxX).foldl (pinStepOk img y)
    (List.replicate 16 0, pin0)).1

/-- rasterLine of pt700.go: look up the pin offset for the media width
(failing on unknown widths before writing); an aborted pin loop ends the
run (Err.indexOutOfRange); otherwise write the line-data command
0x47 16 0 followed by the 16 packed bytes. -/
def rasterLine (width : Nat) (img : MImage) (y : Int) (s : PState) :
    Except Err Unit × PState :=
  match unusedPins width 128 with
  | Except.error e => (Except.error e, s)
  | Except.ok pin =>
    match rasterLineBytes pin img y with
    | none => (Except.error Err.indexOutOfRange, s)
    | some line => (Except.ok (), wr (0x47 :: 16 :: 0 :: line) s)

/-- The printRaster row loop over the visit-ordered row list. -/
def printRasterLoop (width : Nat) (img : MImage) :
    List Int → PState → Except Err Unit × PState
  | [], s => (Except.ok (), s)
  | y :: ys, s => andThen (rasterLine width img y s)
      (fun _ s2 => printRasterLoop width img ys s2)

/-- printRaster of pt700.go: emit one line per loop iteration of
`for y := Max.Y; y > Min.Y; y--`. -/
def printRaster (width : Nat) (img : MImage) (s : PState) :
    Except Err Unit × PState :=
  printRasterLoop width img (rasterRows img.bounds.minY img.bounds.maxY) s

/-- printPage of pt700.go: the per-page protocol.  A non-first page first
waits for a phase-change status; then raster mode, print information, mode
settings, advanced mode settings (always 0x08), margins, compression and
the raster data are written; then the print command; then a phase-change
wait, an extra phase-change wait on the last page, and finally a
printing-completed wait. -/
def printPage (width pos : Nat) (img : MImage) (s : PState) :
    Except Err Unit × PState :=
  let pre : Except Err Unit × PState :=
    if pos &&& pagePos.first = 0 then
      andThen (readStatus StatusPhaseChange s) (fun _ t => (Except.ok (), t))
    else (Except.ok (), s)
  andThen pre fun _ s1 =>
  let s2 := wr [0x1B, 0x69, 0x61, 0x01] s1
  let s3 := wr (infoBytes width pos img) s2
  let s4 := wr [0x1B, 0x69, 0x4D, 0x40] s3
  let s5 := wr [0x1B, 0x69, 0x4B, 0x08] s4
  let s6 := wr [0x1B, 0x69, 0x64, 0x00, 0x00] s5
  let s7 := wr [0x4D, 0x00] s6
  andThen (printRaster width img s7) fun _ s8 =>
  let s9 := wr [printCmdByte pos] s8
  andThen (readStatus StatusPhaseChange s9) fun _ s10 =>
  let feed : Except Err Unit × PState :=
    if pos &&& pagePos.last ≠ 0 then
      andThen (readStatus StatusPhaseChange s10) (fun _ t => (Except.ok (), t))
    else (Except.ok (), s10)
  andThen feed fun _ s11 =>
  andThen (readStatus StatusPrintingCompleted s11) fun _ s12 =>
  (Except.ok (), s12)

/-- reset of pt700.go: write the 100-byte invalidate sequence, then drain
any stale bytes with readUntilEOF (recorded as a drain event; the device
model holds no stale bytes). -/
def reset (s : PState) : Except Err Unit × PState :=
  let s1 := wr (List.replicate 100 0) s
  (Except.ok (), { s1 with out := s1.out ++ [Ev.drain] })

/-- status of pt700.go (the lowercase method): write the status request
1B 69 53 and read a reply-to-request status. -/
def status (s : PState) : Except Err Status × PState :=
  readStatus StatusReplyToRequest (wr [0x1B, 0x69, 0x53] s)

/-- The Print page loop: page i of total gets the first flag at i = 0 and
the last flag at i = total - 1. -/
def printPages (width total : Nat) (i : Nat) :
    List MImage → PState → Except Err Unit × PState
  | [], s => (Except.ok (), s)
  | img :: rest, s =>
    let pos := (if i = 0 then pagePos.first else 0) |||
      (if i = total - 1 then pagePos.last else 0)
    andThen (printPage width pos img s)
      (fun _ s2 => printPages width total (i + 1) rest s2)

/-- Print of pt700.go: reset, initialize, status exchange, device-error
check, page validation, then the page loop. -/
def Print (imgs : List MImage) (s : PState) : Except Err Unit × PState :=
  andThen (reset s) fun _ s1 =>
  let s2 := wr [0x1B, 0x40] s1
  andThen (status s2) fun st s3 =>
  andThen (st.Err, s3) fun _ s4 =>
  andThen ((checkImgs st.mediaWidth imgs, s4)) fun _ s5 =>
  printPages st.mediaWidth imgs.length 0 imgs s5

/-- Errors of the bounded channel reads (readFull and the strict
readUntilEOF of the status.go snapshot). -/
inductive ReadErr where
  | unexpectedEOF
  | trailingData
  | blocked
deriving DecidableEq

/-- readFull of pt700.go: reads until the buffer is full or an empty read
(EOF) arrives; an empty read ends the loop at once, returning the short
count with no error.  The fd is modelled as the list of chunks successive
unix.Read calls yield (the kernel returns at most the space left, so an
oversized chunk is truncated); an exhausted chunk list models a read that
would block, which no theorem exercises. -/
def readFull (need : Nat) : List (List Nat) → Nat → Option (Nat × List (List Nat))
  | chunks, read =>
    if read = need then some (read, chunks)
    else
      match chunks with
      | [] => none
      | c :: rest =>
        if c.length = 0 then some (read, rest)
        else readFull need rest (read + min c.length (need - read))

/-- Trailing check of the strict readUntilEOF: after the buffer is full,
one more read must yield nothing, otherwise the leftover bytes are an
unexpected-trailing-data error. -/
def checkTrailing (read : Nat) : List (List Nat) → Except ReadErr (Nat × List (List Nat))
  | [] => Except.error ReadErr.blocked
  | c :: rest =>
    if c.length = 0 then Except.ok (read, rest)
    else Except.error ReadErr.trailingData

/-- readUntilEOF of the status.go snapshot (the strict bounded read): an
empty read on the very first attempt is tolerated as spurious and the loop
continues; any later empty read before the buffer is full fails with
io.ErrUnexpectedEOF; once full, the trailing check runs.  Chunks model
successive unix.Read results as in readFull. -/
def readUntilEOFLoop (need : Nat) : List (List Nat) → Nat → Bool →
    Except ReadErr (Nat × List (List Nat))
  | chunks, read, first =>
    if read = need then checkTrailing read chunks
    else
      match chunks with
      | [] => Except.error ReadErr.blocked
      | c :: rest =>
        if c.length = 0 then
          if first then readUntilEOFLoop need rest read false
          else Except.error ReadErr.unexpectedEOF
        else readUntilEOFLoop need rest (read + min c.length (need - read)) false

/-- The strict readUntilEOF entry point: empty buffer so far, first
attempt pending. -/
def readUntilEOF (need : Nat) (chunks : List (List Nat)) :
    Except ReadErr (Nat × List (List Nat)) :=
  readUntilEOFLoop need chunks 0 true

/-- Detector for an advanced-mode-settings write: first three bytes
1B 69 4B. -/
def isAdv : Ev → Bool
  | Ev.write (0x1B :: 0x69 :: 0x4B :: _) => true
  | _ => false

/-- Detector for a raster line-data write: first byte 0x47. -/
def isRasterWrite : Ev → Bool
  | Ev.write (0x47 :: _) => true
  | _ => false

/-- Detector for a printing-completed wait attempt. -/
def isWait1 : Ev → Bool
  | Ev.wait 1 => true
  | _ => false

/-- Number of printing-completed wait attempts in a trace. -/
def waits1 (tr : List Ev) : Nat :=
  (tr.filter isWait1).length

/-- The wait a non-first page performs before sending anything. -/
def preWaits (pos : Nat) : List Ev :=
  if pos &&& pagePos.first = 0 then [Ev.wait StatusPhaseChange] else []

/-- The six command writes printPage emits before the raster data. -/
def pageCmds (width pos : Nat) (img : MImage) : List Ev :=
  [Ev.write [0x1B, 0x69, 0x61, 0x01],
   Ev.write (infoBytes width pos img),
   Ev.write [0x1B, 0x69, 0x4D, 0x40],
   Ev.write [0x1B, 0x69, 0x4B, 0x08],
   Ev.write [0x1B, 0x69, 0x64, 0x00, 0x00],
   Ev.write [0x4D, 0x00]]

/-- The raster line writes of one page, in loop visit order. -/
def rasterEvs (pin : Nat) (img : MImage) : List Ev :=
  (rasterRows img.bounds.minY img.bounds.maxY).map
    (fun y => Ev.write (0x47 :: 16 :: 0 :: packedLine pin img y))

/-- The waits printPage performs after the print command: a phase-change,
an extra phase-change on the last page, then printing-completed. -/
def postWaits (pos : Nat) : List Ev :=
  [Ev.wait StatusPhaseChange] ++
    (if pos &&& pagePos.last ≠ 0 then [Ev.wait StatusPhaseChange] else []) ++
    [Ev.wait StatusPrintingCompleted]

/-- The complete event trace of one successful printPage call. -/
def pageTrace (width pos pin : Nat) (img : MImage) : List Ev :=
  preWaits pos ++ pageCmds width pos img ++ rasterEvs pin img ++
    [Ev.write [printCmdByte pos]] ++ postWaits pos

/-- The events Print emits before any page: invalidate, drain, initialize,
status request and the reply-to-request read. -/
def jobPreamble : List Ev :=
  [Ev.write (List.replicate 100 0), Ev.drain, Ev.write [0x1B, 0x40],
   Ev.write [0x1B, 0x69, 0x53], Ev.wait StatusReplyToRequest]

/-- A 32-byte phase-change status reply (all other fields zero). -/
def reply6 : List Nat :=
  List.replicate 18 0 ++ [6] ++ List.replicate 13 0

/-- A 32-byte printing-completed status reply. -/
def reply1 : List Nat :=
  List.replicate 18 0 ++ [1] ++ List.replicate 13 0

/-- A 32-byte reply-to-request status reply advertising media width w and
no device errors. -/
def statusReply (w : Nat) : List Nat :=
  List.replicate 10 0 ++ [w] ++ List.replicate 21 0

/-- An all-white 24 x 172 page: correct width for 3.5mm tape (24 px) at
exactly the minimum printable length. -/
def imgA : MImage :=
  ⟨⟨0, 0, 24, 172⟩, fun _ _ => 0⟩

/-- An all-white 70 x 80 page: correct width for 12mm tape (70 px) but
shorter than the 172 px minimum printable length. -/
def img80 : MImage :=
  ⟨⟨0, 0, 70, 80⟩, fun _ _ => 0⟩

/-- An all-white 50 x 200 page: long enough, but 50 px wide, which only
matches 9mm tape. -/
def img50 : MImage :=
  ⟨⟨0, 0, 50, 200⟩, fun _ _ => 0⟩

/-- A 1 x 2 bitmap whose first stored row (y = 0) is black (index 1) and
whose last stored row (y = 1) is white. -/
def img2rows : MImage :=
  ⟨⟨0, 0, 1, 2⟩, fun _ y => if y = 0 then 1 else 0⟩

/-- A trivial all-white 1 x 1 bitmap. -/
def img1 : MImage :=
  ⟨⟨0, 0, 1, 1⟩, fun _ _ => 0⟩

/-! Structural lemmas: the exact trace of successful runs. -/

/-- The pin loop never aborts while its pins stay within the 16-byte
line, and then it computes the unchecked fold. -/
theorem pinFold_some (img : MImage) (y : Int) :
    ∀ (xs : List Int) (line : List Nat) (p : Nat),
      line.length = 16 → p + xs.length ≤ 128 →
      xs.foldl (pinStep img y) (some (line, p)) =
        some (xs.foldl (pinStepOk img y) (line, p)) := by
  intro xs
  induction xs with
  | nil => intro line p hlen hfit; simp
  | cons x xs ih =>
    intro line p hlen hfit
    have hp : p < 128 := by simp at hfit; omega
    have hdiv : p / 8 < 16 := by omega
    have hstep : pinStep img y (some (line, p)) x = some (pinStepOk img y (line, p) x) := by
      by_cases hb : img.BlackAt x y <;> simp [pinStep, pinStepOk, hb, setPin, hlen, hdiv]
    have hlen2 : (pinStepOk img y (line, p) x).1.length = 16 := by
      by_cases hb : img.BlackAt x y <;> simp [pinStepOk, hb, hlen]
    have hsnd : (pinStepOk img y (line, p) x).2 = p + 1 := by
      simp [pinStepOk]
    simp only [List.foldl_cons, hstep]
    rcases hpair : pinStepOk img y (line, p) x with ⟨line2, p2⟩
    rw [hpair] at hlen2 hsnd
    simp only at hlen2 hsnd
    subst hsnd
    exact ih line2 (p + 1) hlen2 (by simp at hfit; omega)

/-- On a row whose pins all fit under 128, rasterLineBytes does not abort
and equals packedLine. -/
theorem rasterLineBytes_eq_some (pin0 : Nat) (img : MImage) (y : Int)
    (hfit : pin0 + (img.bounds.maxX - img.bounds.minX).toNat ≤ 128) :
    rasterLineBytes pin0 img y = some (packedLine pin0 img y) := by
  rw [rasterLineBytes, packedLine]
  rw [pinFold_some img y (intRange img.bounds.minX img.bounds.maxX)
    (List.replicate 16 0) pin0 (by simp) (by simpa [intRange] using hfit)]
  simp

/-- A page that passed validation fits the print head: the centering
offset plus its width never exceeds the 128 pins. -/
theorem fit_of_valid (w dx pin : Nat) (img : MImage)
    (hw : pixels w = Except.ok dx)
    (hpin : unusedPins w 128 = Except.ok pin)
    (hdx : img.Dx = (dx : Int)) :
    pin + (img.bounds.maxX - img.bounds.minX).toNat ≤ 128 := by
  have hdx128 : dx ≤ 128 := by
    unfold pixels at hw
    split_ifs at hw <;> simp_all <;> omega
  have hpin2 : pin = (128 - dx) / 2 := by
    unfold unusedPins at hpin
    rw [hw] at hpin
    simp at hpin
    omega
  have htn : (img.bounds.maxX - img.bounds.minX).toNat = dx := by
    rw [MImage.Dx] at hdx
    rw [hdx]
    exact Int.toNat_natCast dx
  omega

/-- rasterLine on a fitting row: one line-data write of the packed line. -/
theorem rasterLine_ok (width pin : Nat) (img : MImage) (y : Int) (s : PState)
    (hpin : unusedPins width 128 = Except.ok pin)
    (hfit : pin + (img.bounds.maxX - img.bounds.minX).toNat ≤ 128) :
    rasterLine width img y s =
      (Except.ok (), wr (0x47 :: 16 :: 0 :: packedLine pin img y) s) := by
  simp [rasterLine, hpin, rasterLineBytes_eq_some pin img y hfit]

/-- The raster loop appends one line write per visited row and succeeds
whenever the media width is known and the page fits the print head. -/
theorem printRasterLoop_trace (width pin : Nat) (img : MImage)
    (hpin : unusedPins width 128 = Except.ok pin)
    (hfit : pin + (img.bounds.maxX - img.bounds.minX).toNat ≤ 128) :
    ∀ (ys : List Int) (s : PState),
      printRasterLoop width img ys s =
        (Except.ok (),
          ⟨s.out ++ ys.map (fun y => Ev.write (0x47 :: 16 :: 0 :: packedLine pin img y)),
            s.replies⟩) := by
  intro ys
  induction ys with
  | nil => intro s; simp [printRasterLoop]
  | cons y ys ih =>
    intro s
    simp [printRasterLoop, rasterLine_ok width pin img y s hpin hfit, andThen, wr, ih]

/-- printRaster appends exactly the rasterEvs segment. -/
theorem printRaster_trace (width pin : Nat) (img : MImage)
    (hpin : unusedPins width 128 = Except.ok pin)
    (hfit : pin + (img.bounds.maxX - img.bounds.minX).toNat ≤ 128) (s : PState) :
    printRaster width img s = (Except.ok (), ⟨s.out ++ rasterEvs pin img, s.replies⟩) := by
  simp [printRaster, rasterEvs, printRasterLoop_trace width pin img hpin hfit]

/-- Computation rule: sequencing after a successful step. -/
theorem andThen_ok {α β : Type} (a : α) (s : PState)
    (f : α → PState → Except Err β × PState) :
    andThen (Except.ok a, s) f = f a s := rfl

/-- Computation rule: sequencing after a failed step keeps its state. -/
theorem andThen_error {α β : Type} (e : Err) (s : PState)
    (f : α → PState → Except Err β × PState) :
    andThen (Except.error e, s) f = (Except.error e, s) := rfl

/-- Computation rule for wr on a literal state. -/
theorem wr_mk (bs : List Nat) (out : List Ev) (rp : List (List Nat)) :
    wr bs ⟨out, rp⟩ = ⟨out ++ [Ev.write bs], rp⟩ := rfl

/-- readStatus succeeds on a queued reply of the expected kind. -/
theorem readStatus_cons (expected : Nat) (out : List Ev) (r : List Nat)
    (rest : List (List Nat)) (h : (decodeStatus r).type = expected) :
    readStatus expected ⟨out, r :: rest⟩ =
      (Except.ok (decodeStatus r), ⟨out ++ [Ev.wait expected], rest⟩) := by
  simp [readStatus, h]

/-- printRaster on a literal state. -/
theorem printRaster_trace_mk (width pin : Nat) (img : MImage)
    (hpin : unusedPins width 128 = Except.ok pin)
    (hfit : pin + (img.bounds.maxX - img.bounds.minX).toNat ≤ 128)
    (out : List Ev) (rp : List (List Nat)) :
    printRaster width img ⟨out, rp⟩ = (Except.ok (), ⟨out ++ rasterEvs pin img, rp⟩) :=
  printRaster_trace width pin img hpin hfit ⟨out, rp⟩

/-- A middle page (pos = 0) consumes three replies (phase-change,
phase-change, printing-completed) and appends exactly its pageTrace. -/
theorem printPage_trace_middle (width pin : Nat) (img : MImage)
    (hpin : unusedPins width 128 = Except.ok pin)
    (hfit : pin + (img.bounds.maxX - img.bounds.minX).toNat ≤ 128) (out : List Ev)
    (r1 r2 r3 : List Nat) (rest : List (List Nat))
    (h1 : (decodeStatus r1).type = 6) (h2 : (decodeStatus r2).type = 6)
    (h3 : (decodeStatus r3).type = 1) :
    printPage width 0 img ⟨out, r1 :: r2 :: r3 :: rest⟩ =
      (Except.ok (), ⟨out ++ pageTrace width 0 pin img, rest⟩) := by
  simp +decide [printPage, readStatus_cons, andThen_ok, wr_mk,
    printRaster_trace_mk width pin img hpin hfit, h1, h2, h3,
    pageTrace, preWaits, postWaits, pageCmds,
    StatusPhaseChange, StatusPrintingCompleted, pagePos.first, pagePos.last, printCmdByte]

/-- A first (non-last) page (pos = 2) skips the pre-send wait and consumes
two replies (phase-change, printing-completed). -/
theorem printPage_trace_first (width pin : Nat) (img : MImage)
    (hpin : unusedPins width 128 = Except.ok pin)
    (hfit : pin + (img.bounds.maxX - img.bounds.minX).toNat ≤ 128) (out : List Ev)
    (r1 r2 : List Nat) (rest : List (List Nat))
    (h1 : (decodeStatus r1).type = 6) (h2 : (decodeStatus r2).type = 1) :
    printPage width 2 img ⟨out, r1 :: r2 :: rest⟩ =
      (Except.ok (), ⟨out ++ pageTrace width 2 pin img, rest⟩) := by
  simp +decide [printPage, readStatus_cons, andThen_ok, wr_mk,
    printRaster_trace_mk width pin img hpin hfit, h1, h2,
    pageTrace, preWaits, postWaits, pageCmds,
    StatusPhaseChange, StatusPrintingCompleted, pagePos.first, pagePos.last, printCmdByte]

/-- A last (non-first) page (pos = 4) consumes four replies (phase-change
before sending, then phase-change, the feeding phase-change, and
printing-completed) and sends the print-and-feed command. -/
theorem printPage_trace_last (width pin : Nat) (img : MImage)
    (hpin : unusedPins width 128 = Except.ok pin)
    (hfit : pin + (img.bounds.maxX - img.bounds.minX).toNat ≤ 128) (out : List Ev)
    (r1 r2 r3 r4 : List Nat) (rest : List (List Nat))
    (h1 : (decodeStatus r1).type = 6) (h2 : (decodeStatus r2).type = 6)
    (h3 : (decodeStatus r3).type = 6) (h4 : (decodeStatus r4).type = 1) :
    printPage width 4 img ⟨out, r1 :: r2 :: r3 :: r4 :: rest⟩ =
      (Except.ok (), ⟨out ++ pageTrace width 4 pin img, rest⟩) := by
  simp +decide [printPage, readStatus_cons, andThen_ok, wr_mk,
    printRaster_trace_mk width pin img hpin hfit, h1, h2, h3, h4,
    pageTrace, preWaits, postWaits, pageCmds,
    StatusPhaseChange, StatusPrintingCompleted, pagePos.first, pagePos.last, printCmdByte]

/-- An only page (pos = 6, both first and last) skips the pre-send wait,
consumes three replies and sends the print-and-feed command. -/
theorem printPage_trace_only (width pin : Nat) (img : MImage)
    (hpin : unusedPins width 128 = Except.ok pin)
    (hfit : pin + (img.bounds.maxX - img.bounds.minX).toNat ≤ 128) (out : List Ev)
    (r1 r2 r3 : List Nat) (rest : List (List Nat))
    (h1 : (decodeStatus r1).type = 6) (h2 : (decodeStatus r2).type = 6)
    (h3 : (decodeStatus r3).type = 1) :
    printPage width 6 img ⟨out, r1 :: r2 :: r3 :: rest⟩ =
      (Except.ok (), ⟨out ++ pageTrace width 6 pin img, rest⟩) := by
  simp +decide [printPage, readStatus_cons, andThen_ok, wr_mk,
    printRaster_trace_mk width pin img hpin hfit, h1, h2, h3,
    pageTrace, preWaits, postWaits, pageCmds,
    StatusPhaseChange, StatusPrintingCompleted, pagePos.first, pagePos.last, printCmdByte]

/-- Print with a failing page validation: the invalidate, initialize and
status exchange have already happened (the trace is exactly jobPreamble)
and the validation error is returned before any page command. -/
theorem Print_trace_checkErr (imgs : List MImage) (r0 : List Nat)
    (rest : List (List Nat)) (w : Nat) (e : Err)
    (ht : (decodeStatus r0).type = 0) (he1 : (decodeStatus r0).err1 = 0)
    (he2 : (decodeStatus r0).err2 = 0) (hwid : (decodeStatus r0).mediaWidth = w)
    (hchk : checkImgs w imgs = Except.error e) :
    Print imgs ⟨[], r0 :: rest⟩ = (Except.error e, ⟨jobPreamble, rest⟩) := by
  simp +decide [Print, reset, wr_mk, andThen_ok, andThen_error, status, readStatus_cons,
    ht, he1, he2, hwid, hchk, Status.Err, jobPreamble, StatusReplyToRequest]

/-- Print of the empty page list: the whole exchange happens, validation
passes vacuously (given a known media width) and the job succeeds with no
page command emitted. -/
theorem Print_trace_nil (r0 : List Nat) (rest : List (List Nat)) (w n : Nat)
    (ht : (decodeStatus r0).type = 0) (he1 : (decodeStatus r0).err1 = 0)
    (he2 : (decodeStatus r0).err2 = 0) (hwid : (decodeStatus r0).mediaWidth = w)
    (hw : pixels w = Except.ok n) :
    Print [] ⟨[], r0 :: rest⟩ = (Except.ok (), ⟨jobPreamble, rest⟩) := by
  simp +decide [Print, reset, wr_mk, andThen_ok, andThen_error, status, readStatus_cons,
    ht, he1, he2, hwid, Status.Err, checkImgs, MediaWidth.Dx, hw, checkImgsLoop,
    printPages, jobPreamble, StatusReplyToRequest]

/-- Pages that pass the validation loop have the exact media width and at
least the minimum printable length. -/
theorem checkImgsLoop_ok_mem (dx minDy : Nat) :
    ∀ (imgs : List MImage), checkImgsLoop dx minDy imgs = Except.ok () →
      ∀ img ∈ imgs, img.Dx = (dx : Int) ∧ (minDy : Int) ≤ img.Dy := by
  intro imgs
  induction imgs with
  | nil => intro _ img hmem; simp at hmem
  | cons i is ih =>
    intro h img hmem
    simp only [checkImgsLoop] at h
    by_cases h1 : i.Dx ≠ (dx : Int)
    · simp [h1] at h
    · by_cases h2 : i.Dy < (minDy : Int)
      · simp [h1, h2] at h
      · rcases List.mem_cons.mp hmem with rfl | hmem2
        · exact ⟨not_not.mp h1, not_lt.mp h2⟩
        · exact ih (by simpa [h1, h2] using h) img hmem2

/-- Print of a two-page job with adequate replies: the trace is the
preamble followed by a first-page trace (pos = 2) and a last-page trace
(pos = 4), in order. -/
theorem Print_trace_two (a b : MImage) (r0 p1 p2 q1 q2 q3 q4 : List Nat)
    (rest : List (List Nat)) (w pin : Nat)
    (ht : (decodeStatus r0).type = 0) (he1 : (decodeStatus r0).err1 = 0)
    (he2 : (decodeStatus r0).err2 = 0) (hwid : (decodeStatus r0).mediaWidth = w)
    (hchk : checkImgs w [a, b] = Except.ok ())
    (hpin : unusedPins w 128 = Except.ok pin)
    (hp1 : (decodeStatus p1).type = 6) (hp2 : (decodeStatus p2).type = 1)
    (hq1 : (decodeStatus q1).type = 6) (hq2 : (decodeStatus q2).type = 6)
    (hq3 : (decodeStatus q3).type = 6) (hq4 : (decodeStatus q4).type = 1) :
    Print [a, b] ⟨[], r0 :: p1 :: p2 :: q1 :: q2 :: q3 :: q4 :: rest⟩ =
      (Except.ok (), ⟨jobPreamble ++ pageTrace w 2 pin a ++ pageTrace w 4 pin b, rest⟩) := by
  rcases hpx : pixels w with e | dx
  · exfalso
    unfold checkImgs MediaWidth.Dx at hchk
    rw [hpx] at hchk
    simp at hchk
  · have hloop : checkImgsLoop dx (MediaWidth.MinDy w) [a, b] = Except.ok () := by
      unfold checkImgs MediaWidth.Dx at hchk
      rw [hpx] at hchk
      exact hchk
    have hmem := checkImgsLoop_ok_mem dx (MediaWidth.MinDy w) [a, b] hloop
    have hfa : pin + (a.bounds.maxX - a.bounds.minX).toNat ≤ 128 :=
      fit_of_valid w dx pin a hpx hpin (hmem a (by simp)).1
    have hfb : pin + (b.bounds.maxX - b.bounds.minX).toNat ≤ 128 :=
      fit_of_valid w dx pin b hpx hpin (hmem b (by simp)).1
    simp +decide [Print, reset, wr_mk, andThen_ok, andThen_error, status, readStatus_cons,
      ht, he1, he2, hwid, hchk, Status.Err, printPages,
      printPage_trace_first w pin a hpin hfa, printPage_trace_last w pin b hpin hfb,
      hp1, hp2, hq1, hq2, hq3, hq4, jobPreamble, StatusReplyToRequest,
      pagePos.first, pagePos.last]

/-- Print of a three-page job with adequate replies: preamble, then page
traces at positions first (2), middle (0) and last (4). -/
theorem Print_trace_three (a b c : MImage) (r0 p1 p2 q1 q2 q3 s1 s2 s3 s4 : List Nat)
    (rest : List (List Nat)) (w pin : Nat)
    (ht : (decodeStatus r0).type = 0) (he1 : (decodeStatus r0).err1 = 0)
    (he2 : (decodeStatus r0).err2 = 0) (hwid : (decodeStatus r0).mediaWidth = w)
    (hchk : checkImgs w [a, b, c] = Except.ok ())
    (hpin : unusedPins w 128 = Except.ok pin)
    (hp1 : (decodeStatus p1).type = 6) (hp2 : (decodeStatus p2).type = 1)
    (hq1 : (decodeStatus q1).type = 6) (hq2 : (decodeStatus q2).type = 6)
    (hq3 : (decodeStatus q3).type = 1)
    (hs1 : (decodeStatus s1).type = 6) (hs2 : (decodeStatus s2).type = 6)
    (hs3 : (decodeStatus s3).type = 6) (hs4 : (decodeStatus s4).type = 1) :
    Print [a, b, c] ⟨[], r0 :: p1 :: p2 :: q1 :: q2 :: q3 :: s1 :: s2 :: s3 :: s4 :: rest⟩ =
      (Except.ok (),
        ⟨jobPreamble ++ pageTrace w 2 pin a ++ pageTrace w 0 pin b ++ pageTrace w 4 pin c,
          rest⟩) := by
  rcases hpx : pixels w with e | dx
  · exfalso
    unfold checkImgs MediaWidth.Dx at hchk
    rw [hpx] at hchk
    simp at hchk
  · have hloop : checkImgsLoop dx (MediaWidth.MinDy w) [a, b, c] = Except.ok () := by
      unfold checkImgs MediaWidth.Dx at hchk
      rw [hpx] at hchk
      exact hchk
    have hmem := checkImgsLoop_ok_mem dx (MediaWidth.MinDy w) [a, b, c] hloop
    have hfa : pin + (a.bounds.maxX - a.bounds.minX).toNat ≤ 128 :=
      fit_of_valid w dx pin a hpx hpin (hmem a (by simp)).1
    have hfb : pin + (b.bounds.maxX - b.bounds.minX).toNat ≤ 128 :=
      fit_of_valid w dx pin b hpx hpin (hmem b (by simp)).1
    have hfc : pin + (c.bounds.maxX - c.bounds.minX).toNat ≤ 128 :=
      fit_of_valid w dx pin c hpx hpin (hmem c (by simp)).1
    simp +decide [Print, reset, wr_mk, andThen_ok, andThen_error, status, readStatus_cons,
      ht, he1, he2, hwid, hchk, Status.Err, printPages,
      printPage_trace_first w pin a hpin hfa, printPage_trace_middle w pin b hpin hfb,
      printPage_trace_last w pin c hpin hfc,
      hp1, hp2, hq1, hq2, hq3, hs1, hs2, hs3, hs4, jobPreamble, StatusReplyToRequest,
      pagePos.first, pagePos.last]

/-! Helper lemmas about trace contents. -/

/-- A raster line write is never an advanced-mode-settings write. -/
theorem isAdv_write_raster (bs : List Nat) : isAdv (Ev.write (0x47 :: bs)) = false := rfl

/-- The print-information write is never an advanced-mode-settings write. -/
theorem isAdv_info (width pos : Nat) (img : MImage) :
    isAdv (Ev.write (infoBytes width pos img)) = false := rfl

/-- A write event is never a printing-completed wait. -/
theorem isWait1_write (bs : List Nat) : isWait1 (Ev.write bs) = false := rfl

/-- waits1 distributes over trace concatenation. -/
theorem waits1_append (l m : List Ev) : waits1 (l ++ m) = waits1 l + waits1 m := by
  simp [waits1, List.filter_append]

/-- The raster segment contains no advanced-mode-settings write. -/
theorem filter_isAdv_rasterEvs (pin : Nat) (img : MImage) :
    (rasterEvs pin img).filter isAdv = [] := by
  rw [List.filter_eq_nil_iff]
  intro a ha
  simp only [rasterEvs, List.mem_map] at ha
  obtain ⟨y, hy, rfl⟩ := ha
  simp [isAdv_write_raster]

/-- The raster segment contains no printing-completed wait. -/
theorem waits1_rasterEvs (pin : Nat) (img : MImage) :
    waits1 (rasterEvs pin img) = 0 := by
  simp only [waits1, List.length_eq_zero]
  rw [List.filter_eq_nil_iff]
  intro a ha
  simp only [rasterEvs, List.mem_map] at ha
  obtain ⟨y, hy, rfl⟩ := ha
  simp [isWait1_write]

/-- Every page trace contains exactly one printing-completed wait, at its
very end. -/
theorem waits1_pageTrace (width pos pin : Nat) (img : MImage) :
    waits1 (pageTrace width pos pin img) = 1 := by
  have hpre : waits1 (preWaits pos) = 0 := by
    by_cases hf : pos &&& pagePos.first = 0 <;>
      simp [preWaits, hf, waits1, isWait1, StatusPhaseChange]
  have hpost : waits1 (postWaits pos) = 1 := by
    by_cases hl : pos &&& pagePos.last ≠ 0 <;>
      simp [postWaits, hl, waits1, isWait1, StatusPhaseChange, StatusPrintingCompleted]
  have hcmds : waits1 (pageCmds width pos img) = 0 := by
    simp [pageCmds, waits1, isWait1_write]
  have hprint : waits1 [Ev.write [printCmdByte pos]] = 0 := by
    simp [waits1, isWait1_write]
  rw [pageTrace]
  simp only [waits1_append, hpre, hpost, hcmds, hprint, waits1_rasterEvs]

/-- Every page trace carries exactly one advanced-mode-settings write, and
it is the 0x08 one. -/
theorem filter_isAdv_pageTrace (width pos pin : Nat) (img : MImage) :
    (pageTrace width pos pin img).filter isAdv = [Ev.write [0x1B, 0x69, 0x4B, 0x08]] := by
  have hpre : (preWaits pos).filter isAdv = [] := by
    by_cases hf : pos &&& pagePos.first = 0 <;> simp [preWaits, hf, isAdv, StatusPhaseChange]
  have hpost : (postWaits pos).filter isAdv = [] := by
    by_cases hl : pos &&& pagePos.last ≠ 0 <;>
      simp [postWaits, hl, isAdv, StatusPhaseChange, StatusPrintingCompleted]
  have hprint : [Ev.write [printCmdByte pos]].filter isAdv = [] := by
    by_cases hl : pos &&& pagePos.last ≠ 0 <;> simp [printCmdByte, hl, isAdv]
  have hcmds : (pageCmds width pos img).filter isAdv = [Ev.write [0x1B, 0x69, 0x4B, 0x08]] := by
    simp [pageCmds, isAdv, infoBytes, le32]
  rw [pageTrace]
  simp only [List.filter_append, hpre, hpost, hcmds, hprint, filter_isAdv_rasterEvs]
  simp

/-- The raster segment has exactly one line per bitmap row. -/
theorem rasterEvs_length (pin : Nat) (img : MImage) :
    (rasterEvs pin img).length = (img.Dy).toNat := by
  rw [rasterEvs, rasterRows, List.length_map, List.length_map, List.length_range, MImage.Dy]

/-! Claim theorems. -/

/-- C1 counterexample: on 12mm tape (pixel span 70, minimum printable
length 172) a 70 x 80 page is not padded as the claim requires (46 empty
lines before the rows): the whole job fails with a too-short validation
error and not one raster line write (padding or real) is emitted. -/
theorem c1_counterexample :
    (Print [img80] ⟨[], [statusReply 12]⟩).1 = Except.error (Err.tooShort 172 80)
    ∧ ((Print [img80] ⟨[], [statusReply 12]⟩).2.out.filter isRasterWrite) = [] := by
  decide

/-- C1 (amended): the driver rejects instead of padding. A job whose
validation passes has every page at least the minimum printable length,
and the raster payload of a page is exactly one line write per loop row
with no padding lines added. -/
theorem c1_theorem :
    (∀ (width : Nat) (imgs : List MImage) (img : MImage),
      checkImgs width imgs = Except.ok () → img ∈ imgs →
        (MediaWidth.MinDy width : Int) ≤ img.Dy)
    ∧ (∀ (width pin : Nat) (img : MImage) (s : PState),
        unusedPins width 128 = Except.ok pin →
        pin + (img.bounds.maxX - img.bounds.minX).toNat ≤ 128 →
          (printRaster width img s).2.out = s.out ++ rasterEvs pin img
          ∧ (rasterEvs pin img).length = (img.Dy).toNat) := by
  constructor
  · intro width imgs img hok hmem
    unfold checkImgs at hok
    rcases hDx : MediaWidth.Dx width with e | dx <;> rw [hDx] at hok
    · simp at hok
    · exact (checkImgsLoop_ok_mem dx (MediaWidth.MinDy width) imgs hok img hmem).2
  · intro width pin img s hpin hfit
    exact ⟨by rw [printRaster_trace width pin img hpin hfit], rasterEvs_length pin img⟩

/-- C1 witness: on 3.5mm tape the 24 x 172 page passes validation, meets
the minimum, and its raster payload is exactly 172 line writes. -/
theorem c1_witness :
    checkImgs 4 [imgA] = Except.ok ()
    ∧ (MediaWidth.MinDy 4 : Int) ≤ imgA.Dy
    ∧ unusedPins 4 128 = Except.ok 52
    ∧ 52 + (imgA.bounds.maxX - imgA.bounds.minX).toNat ≤ 128
    ∧ (printRaster 4 imgA ⟨[], []⟩).2.out = [] ++ rasterEvs 52 imgA
    ∧ (rasterEvs 52 imgA).length = (imgA.Dy).toNat :=
  ⟨by decide, c1_theorem.1 4 [imgA] imgA (by decide) (by simp),
   by decide, by decide,
   (c1_theorem.2 4 52 imgA ⟨[], []⟩ (by decide) (by decide)).1,
   (c1_theorem.2 4 52 imgA ⟨[], []⟩ (by decide) (by decide)).2⟩

/-- C2: the raster loop of printRaster is off by one.  For a bitmap with
stored rows 0 and 1 (bounds max Y = 2) the loop visits y = 2 (one past the
last stored row) first and y = 1 last, never y = 0, while the claimed
last-to-first order is 1 then 0.  On a two-row bitmap whose first stored
row is black, both emitted lines are blank (BlackAt reads white outside
the bounds, via Paletted.ColorIndexAt) and the nonzero packed line of
row 0 is never written. -/
theorem c2_theorem :
    rasterRows 0 2 = [2, 1] ∧ rasterRows 0 2 ≠ [1, 0]
    ∧ (printRaster 4 img2rows ⟨[], []⟩).2.out
        = [Ev.write (0x47 :: 16 :: 0 :: List.replicate 16 0),
           Ev.write (0x47 :: 16 :: 0 :: List.replicate 16 0)]
    ∧ rasterLineBytes 52 img2rows 0 ≠ some (List.replicate 16 0)
    ∧ packedLine 52 img2rows 0 ≠ List.replicate 16 0 := by
  decide

/-- C8: geometry queries on the unknown media width byte 5 (and the
no-media byte 0).  pixels and unusedPins fail as the claim states, but
MinBounds checks the pixels error and then returns a nil error with the
zero rectangle: a default geometry, contradicting the unsupported-media
hard stop. -/
theorem c8_theorem :
    pixels 5 = Except.error Err.unknownWidth
    ∧ unusedPins 5 128 = Except.error Err.unknownWidth
    ∧ MediaWidth.Dx 5 = Except.error Err.unknownWidth
    ∧ MinBounds 5 = Except.ok ⟨0, 0, 0, 0⟩
    ∧ MinBounds 0 = Except.ok ⟨0, 0, 0, 0⟩ := by
  decide

/-- C3 counterexample: a single-page job (the page is both first and last,
pos = 6), for which the claim requires the advanced-mode byte 0x00, still
writes 1B 69 4B 08 and never writes 1B 69 4B 00. -/
theorem c3_counterexample :
    (printPage 4 6 img1 ⟨[], [reply6, reply6, reply1]⟩).1 = Except.ok ()
    ∧ Ev.write [0x1B, 0x69, 0x4B, 0x08]
        ∈ (printPage 4 6 img1 ⟨[], [reply6, reply6, reply1]⟩).2.out
    ∧ Ev.write [0x1B, 0x69, 0x4B, 0x00]
        ∉ (printPage 4 6 img1 ⟨[], [reply6, reply6, reply1]⟩).2.out := by
  decide

/-- C3 (amended): for every page of a job, whatever its position (first 2,
middle 0, last 4, only 6), the completed page emits exactly one
advanced-mode-settings write and its byte is always 0x08, never 0x00. -/
theorem c3_theorem :
    (∀ (width pin : Nat) (img : MImage) (r1 r2 : List Nat) (rest : List (List Nat)),
      unusedPins width 128 = Except.ok pin →
      pin + (img.bounds.maxX - img.bounds.minX).toNat ≤ 128 →
      (decodeStatus r1).type = 6 → (decodeStatus r2).type = 1 →
        ((printPage width 2 img ⟨[], r1 :: r2 :: rest⟩).2.out.filter isAdv)
          = [Ev.write [0x1B, 0x69, 0x4B, 0x08]])
    ∧ (∀ (width pin : Nat) (img : MImage) (r1 r2 r3 : List Nat) (rest : List (List Nat)),
      unusedPins width 128 = Except.ok pin →
      pin + (img.bounds.maxX - img.bounds.minX).toNat ≤ 128 →
      (decodeStatus r1).type = 6 → (decodeStatus r2).type = 6 → (decodeStatus r3).type = 1 →
        ((printPage width 0 img ⟨[], r1 :: r2 :: r3 :: rest⟩).2.out.filter isAdv)
          = [Ev.write [0x1B, 0x69, 0x4B, 0x08]])
    ∧ (∀ (width pin : Nat) (img : MImage) (r1 r2 r3 r4 : List Nat) (rest : List (List Nat)),
      unusedPins width 128 = Except.ok pin →
      pin + (img.bounds.maxX - img.bounds.minX).toNat ≤ 128 →
      (decodeStatus r1).type = 6 → (decodeStatus r2).type = 6 →
      (decodeStatus r3).type = 6 → (decodeStatus r4).type = 1 →
        ((printPage width 4 img ⟨[], r1 :: r2 :: r3 :: r4 :: rest⟩).2.out.filter isAdv)
          = [Ev.write [0x1B, 0x69, 0x4B, 0x08]])
    ∧ (∀ (width pin : Nat) (img : MImage) (r1 r2 r3 : List Nat) (rest : List (List Nat)),
      unusedPins width 128 = Except.ok pin →
      pin + (img.bounds.maxX - img.bounds.minX).toNat ≤ 128 →
      (decodeStatus r1).type = 6 → (decodeStatus r2).type = 6 → (decodeStatus r3).type = 1 →
        ((printPage width 6 img ⟨[], r1 :: r2 :: r3 :: rest⟩).2.out.filter isAdv)
          = [Ev.write [0x1B, 0x69, 0x4B, 0x08]]) := by
  refine ⟨?_, ?_, ?_, ?_⟩
  · intro width pin img r1 r2 rest hpin hfit h1 h2
    rw [printPage_trace_first width pin img hpin hfit [] r1 r2 rest h1 h2]
    simp [filter_isAdv_pageTrace]
  · intro width pin img r1 r2 r3 rest hpin hfit h1 h2 h3
    rw [printPage_trace_middle width pin img hpin hfit [] r1 r2 r3 rest h1 h2 h3]
    simp [filter_isAdv_pageTrace]
  · intro width pin img r1 r2 r3 r4 rest hpin hfit h1 h2 h3 h4
    rw [printPage_trace_last width pin img hpin hfit [] r1 r2 r3 r4 rest h1 h2 h3 h4]
    simp [filter_isAdv_pageTrace]
  · intro width pin img r1 r2 r3 rest hpin hfit h1 h2 h3
    rw [printPage_trace_only width pin img hpin hfit [] r1 r2 r3 rest h1 h2 h3]
    simp [filter_isAdv_pageTrace]

/-- C3 witness: the only page of a single-page job on 3.5mm tape emits
exactly one advanced-mode-settings write, carrying 0x08. -/
theorem c3_witness :
    unusedPins 4 128 = Except.ok 52
    ∧ 52 + (img1.bounds.maxX - img1.bounds.minX).toNat ≤ 128
    ∧ (decodeStatus reply6).type = 6 ∧ (decodeStatus reply1).type = 1
    ∧ ((printPage 4 6 img1 ⟨[], reply6 :: reply6 :: reply1 :: []⟩).2.out.filter isAdv)
        = [Ev.write [0x1B, 0x69, 0x4B, 0x08]] :=
  ⟨by decide, by decide, by decide, by decide,
   c3_theorem.2.2.2 4 52 img1 reply6 reply6 reply1 [] (by decide) (by decide) (by decide)
     (by decide) (by decide)⟩

/-- C4 counterexample: a wrong-width page fails the job, but only after
the invalidate, initialize and status-request commands were written: the
trace at the error is the whole preamble, which contains the initialize
write, contradicting the claimed zero bytes written. -/
theorem c4_counterexample :
    (Print [img50] ⟨[], [statusReply 12]⟩).1 = Except.error (Err.badWidth 70 50)
    ∧ (Print [img50] ⟨[], [statusReply 12]⟩).2.out = jobPreamble
    ∧ Ev.write [0x1B, 0x40] ∈ jobPreamble
    ∧ jobPreamble ≠ [] := by
  decide

/-- C4 (amended): a page validation failure aborts the job after the
invalidate, drain, initialize and status exchange but before any per-page
command: the trace at the error is exactly jobPreamble, which contains no
raster write and no advanced-mode write. -/
theorem c4_theorem (imgs : List MImage) (r0 : List Nat) (rest : List (List Nat))
    (w : Nat) (e : Err)
    (ht : (decodeStatus r0).type = 0) (he1 : (decodeStatus r0).err1 = 0)
    (he2 : (decodeStatus r0).err2 = 0) (hwid : (decodeStatus r0).mediaWidth = w)
    (hchk : checkImgs w imgs = Except.error e) :
    Print imgs ⟨[], r0 :: rest⟩ = (Except.error e, ⟨jobPreamble, rest⟩)
    ∧ jobPreamble.filter isRasterWrite = []
    ∧ jobPreamble.filter isAdv = [] :=
  ⟨Print_trace_checkErr imgs r0 rest w e ht he1 he2 hwid hchk, by decide, by decide⟩

/-- C4 witness: a 70 px wide page on 9mm tape (pixel span 50) fails
validation; the job error arrives with exactly the preamble written. -/
theorem c4_witness :
    checkImgs 9 [img80] = Except.error (Err.badWidth 50 70)
    ∧ (Print [img80] ⟨[], [statusReply 9]⟩ = (Except.error (Err.badWidth 50 70), ⟨jobPreamble, []⟩)
      ∧ jobPreamble.filter isRasterWrite = []
      ∧ jobPreamble.filter isAdv = []) :=
  ⟨by decide,
   c4_theorem [img80] (statusReply 9) [] 9 (Err.badWidth 50 70) (by decide) (by decide)
     (by decide) (by decide) (by decide)⟩

/-- C10: Print with an empty page list succeeds: the reset, initialize and
status exchange all happen, validation passes vacuously (the media width
must still be known), and no page command is emitted. -/
theorem c10_theorem (r0 : List Nat) (rest : List (List Nat)) (w n : Nat)
    (ht : (decodeStatus r0).type = 0) (he1 : (decodeStatus r0).err1 = 0)
    (he2 : (decodeStatus r0).err2 = 0) (hwid : (decodeStatus r0).mediaWidth = w)
    (hw : pixels w = Except.ok n) :
    Print [] ⟨[], r0 :: rest⟩ = (Except.ok (), ⟨jobPreamble, rest⟩)
    ∧ jobPreamble.filter isRasterWrite = []
    ∧ jobPreamble.filter isAdv = [] :=
  ⟨Print_trace_nil r0 rest w n ht he1 he2 hwid hw, by decide, by decide⟩

/-- C10 witness: the empty job on 24mm tape returns success with exactly
the preamble written. -/
theorem c10_witness :
    pixels 24 = Except.ok 128
    ∧ (Print [] ⟨[], [statusReply 24]⟩ = (Except.ok (), ⟨jobPreamble, []⟩)
      ∧ jobPreamble.filter isRasterWrite = []
      ∧ jobPreamble.filter isAdv = []) :=
  ⟨by decide,
   c10_theorem (statusReply 24) [] 24 128 (by decide) (by decide) (by decide) (by decide)
     (by decide)⟩

/-- C5 counterexample: in a successful two-page job the driver waits for
printing-completed twice, once inside each page (not exactly once after
the page loop as claimed). -/
theorem c5_counterexample :
    (Print [imgA, imgA]
        ⟨[], [statusReply 4, reply6, reply1, reply6, reply6, reply6, reply1]⟩).1
      = Except.ok ()
    ∧ waits1 ((Print [imgA, imgA]
        ⟨[], [statusReply 4, reply6, reply1, reply6, reply6, reply6, reply1]⟩).2.out) = 2 := by
  have h := Print_trace_two imgA imgA (statusReply 4) reply6 reply1 reply6 reply6 reply6 reply1
    [] 4 52 (by decide) (by decide) (by decide) (by decide) (by decide) (by decide) (by decide)
    (by decide) (by decide) (by decide) (by decide) (by decide)
  have hjp : waits1 jobPreamble = 0 := by decide
  constructor
  · rw [h]
  · rw [h]
    simp [waits1_append, waits1_pageTrace, hjp]

/-- C5 (amended): the printing-completed wait happens once per page, at
the end of the processing of that page, after its phase-change wait(s); there is
no separate job-level completion wait (the preamble has none and the job
trace ends with the trace of the last page). -/
theorem c5_theorem (a b : MImage) (r0 p1 p2 q1 q2 q3 q4 : List Nat)
    (rest : List (List Nat)) (w pin : Nat)
    (ht : (decodeStatus r0).type = 0) (he1 : (decodeStatus r0).err1 = 0)
    (he2 : (decodeStatus r0).err2 = 0) (hwid : (decodeStatus r0).mediaWidth = w)
    (hchk : checkImgs w [a, b] = Except.ok ())
    (hpin : unusedPins w 128 = Except.ok pin)
    (hp1 : (decodeStatus p1).type = 6) (hp2 : (decodeStatus p2).type = 1)
    (hq1 : (decodeStatus q1).type = 6) (hq2 : (decodeStatus q2).type = 6)
    (hq3 : (decodeStatus q3).type = 6) (hq4 : (decodeStatus q4).type = 1) :
    Print [a, b] ⟨[], r0 :: p1 :: p2 :: q1 :: q2 :: q3 :: q4 :: rest⟩ =
      (Except.ok (), ⟨jobPreamble ++ pageTrace w 2 pin a ++ pageTrace w 4 pin b, rest⟩)
    ∧ waits1 (pageTrace w 2 pin a) = 1
    ∧ waits1 (pageTrace w 4 pin b) = 1
    ∧ waits1 jobPreamble = 0
    ∧ postWaits 2 = [Ev.wait 6, Ev.wait 1]
    ∧ postWaits 4 = [Ev.wait 6, Ev.wait 6, Ev.wait 1] :=
  ⟨Print_trace_two a b r0 p1 p2 q1 q2 q3 q4 rest w pin ht he1 he2 hwid hchk hpin
      hp1 hp2 hq1 hq2 hq3 hq4,
    waits1_pageTrace w 2 pin a, waits1_pageTrace w 4 pin b, by decide, by decide, by decide⟩

/-- C5 witness: the two-page job on 3.5mm tape, with its full reply
sequence, realises the amended per-page completion waits. -/
theorem c5_witness :
    checkImgs 4 [imgA, imgA] = Except.ok ()
    ∧ (Print [imgA, imgA]
          ⟨[], [statusReply 4, reply6, reply1, reply6, reply6, reply6, reply1]⟩ =
        (Except.ok (), ⟨jobPreamble ++ pageTrace 4 2 52 imgA ++ pageTrace 4 4 52 imgA, []⟩)
      ∧ waits1 (pageTrace 4 2 52 imgA) = 1
      ∧ waits1 (pageTrace 4 4 52 imgA) = 1
      ∧ waits1 jobPreamble = 0
      ∧ postWaits 2 = [Ev.wait 6, Ev.wait 1]
      ∧ postWaits 4 = [Ev.wait 6, Ev.wait 6, Ev.wait 1]) :=
  ⟨by decide,
    c5_theorem imgA imgA (statusReply 4) reply6 reply1 reply6 reply6 reply6 reply1 [] 4 52
      (by decide) (by decide) (by decide) (by decide) (by decide) (by decide) (by decide)
      (by decide) (by decide) (by decide) (by decide) (by decide)⟩

/-- C7: a wait step returns a decoded status without error exactly when
its kind equals the expected kind; any mismatch fails with an error
carrying the expected kind and the whole observed status. -/
theorem c7_theorem (expected : Nat) (resp : List Nat) (rest : List (List Nat))
    (out : List Ev) (hlen : resp.length = 32) :
    ((readStatus expected ⟨out, resp :: rest⟩).1 = Except.ok (decodeStatus resp)
      ↔ (decodeStatus resp).type = expected)
    ∧ ((decodeStatus resp).type ≠ expected →
        (readStatus expected ⟨out, resp :: rest⟩).1
          = Except.error (Err.statusMismatch expected (decodeStatus resp))) := by
  constructor
  · constructor
    · intro h
      by_contra hne
      simp [readStatus, hne] at h
    · intro h
      simp [readStatus, h]
  · intro h
    simp [readStatus, h]

/-- C7 witness: a 32-byte reply of kind 0 passes a reply-to-request wait,
and fails a phase-change wait with a mismatch error carrying both kinds. -/
theorem c7_witness :
    (statusReply 12).length = 32
    ∧ ((readStatus 0 ⟨[], [statusReply 12]⟩).1 = Except.ok (decodeStatus (statusReply 12))
        ↔ (decodeStatus (statusReply 12)).type = 0)
    ∧ ((decodeStatus (statusReply 12)).type ≠ 6 →
        (readStatus 6 ⟨[], [statusReply 12]⟩).1
          = Except.error (Err.statusMismatch 6 (decodeStatus (statusReply 12)))) :=
  ⟨by decide, (c7_theorem 0 (statusReply 12) [] [] (by decide)).1,
    (c7_theorem 6 (statusReply 12) [] [] (by decide)).2⟩

/-- C9: in a three-page job the continuation flag (byte 11 of the
print-information command) is 0 on the first page and 1 on the others;
only the first page has no pre-send phase-change wait; the print command
is 0x0C on pages one and two and print-and-feed 0x1A only on the last,
which alone gets the extra feeding phase-change wait. -/
theorem c9_theorem (a b c : MImage) (r0 p1 p2 q1 q2 q3 s1 s2 s3 s4 : List Nat)
    (rest : List (List Nat)) (w pin : Nat)
    (ht : (decodeStatus r0).type = 0) (he1 : (decodeStatus r0).err1 = 0)
    (he2 : (decodeStatus r0).err2 = 0) (hwid : (decodeStatus r0).mediaWidth = w)
    (hchk : checkImgs w [a, b, c] = Except.ok ())
    (hpin : unusedPins w 128 = Except.ok pin)
    (hp1 : (decodeStatus p1).type = 6) (hp2 : (decodeStatus p2).type = 1)
    (hq1 : (decodeStatus q1).type = 6) (hq2 : (decodeStatus q2).type = 6)
    (hq3 : (decodeStatus q3).type = 1)
    (hs1 : (decodeStatus s1).type = 6) (hs2 : (decodeStatus s2).type = 6)
    (hs3 : (decodeStatus s3).type = 6) (hs4 : (decodeStatus s4).type = 1) :
    Print [a, b, c] ⟨[], r0 :: p1 :: p2 :: q1 :: q2 :: q3 :: s1 :: s2 :: s3 :: s4 :: rest⟩ =
      (Except.ok (),
        ⟨jobPreamble ++ pageTrace w 2 pin a ++ pageTrace w 0 pin b ++ pageTrace w 4 pin c,
          rest⟩)
    ∧ (infoBytes w 2 a).getD 11 0 = 0x00
    ∧ (infoBytes w 0 b).getD 11 0 = 0x01
    ∧ (infoBytes w 4 c).getD 11 0 = 0x01
    ∧ preWaits 2 = [] ∧ preWaits 0 = [Ev.wait 6] ∧ preWaits 4 = [Ev.wait 6]
    ∧ printCmdByte 2 = 0x0C ∧ printCmdByte 0 = 0x0C ∧ printCmdByte 4 = 0x1A
    ∧ postWaits 2 = [Ev.wait 6, Ev.wait 1] ∧ postWaits 0 = [Ev.wait 6, Ev.wait 1]
    ∧ postWaits 4 = [Ev.wait 6, Ev.wait 6, Ev.wait 1] :=
  ⟨Print_trace_three a b c r0 p1 p2 q1 q2 q3 s1 s2 s3 s4 rest w pin ht he1 he2 hwid hchk hpin
      hp1 hp2 hq1 hq2 hq3 hs1 hs2 hs3 hs4,
    rfl, rfl, rfl, by decide, by decide, by decide, by decide, by decide, by decide,
    by decide, by decide, by decide⟩

/-- C9 witness: the three-page job on 3.5mm tape with its full reply
sequence, instantiating every per-page property. -/
theorem c9_witness :
    checkImgs 4 [imgA, imgA, imgA] = Except.ok ()
    ∧ (Print [imgA, imgA, imgA]
          ⟨[], [statusReply 4, reply6, reply1, reply6, reply6, reply1,
            reply6, reply6, reply6, reply1]⟩ =
        (Except.ok (),
          ⟨jobPreamble ++ pageTrace 4 2 52 imgA ++ pageTrace 4 0 52 imgA ++
            pageTrace 4 4 52 imgA, []⟩)
      ∧ (infoBytes 4 2 imgA).getD 11 0 = 0x00
      ∧ (infoBytes 4 0 imgA).getD 11 0 = 0x01
      ∧ (infoBytes 4 4 imgA).getD 11 0 = 0x01
      ∧ preWaits 2 = [] ∧ preWaits 0 = [Ev.wait 6] ∧ preWaits 4 = [Ev.wait 6]
      ∧ printCmdByte 2 = 0x0C ∧ printCmdByte 0 = 0x0C ∧ printCmdByte 4 = 0x1A
      ∧ postWaits 2 = [Ev.wait 6, Ev.wait 1] ∧ postWaits 0 = [Ev.wait 6, Ev.wait 1]
      ∧ postWaits 4 = [Ev.wait 6, Ev.wait 6, Ev.wait 1]) :=
  ⟨by decide,
    c9_theorem imgA imgA imgA (statusReply 4) reply6 reply1 reply6 reply6 reply1
      reply6 reply6 reply6 reply1 [] 4 52
      (by decide) (by decide) (by decide) (by decide) (by decide) (by decide) (by decide)
      (by decide) (by decide) (by decide) (by decide) (by decide) (by decide) (by decide)
      (by decide)⟩

/-- C6 counterexample: readFull (the capped bounded read of the current
snapshot) does not tolerate an empty read on the very first attempt: with
one spurious empty read followed by an available byte, it stops at once
with a successful short count of 0, leaving the byte unread, instead of
continuing the drain to read it. -/
theorem c6_counterexample :
    readFull 1 [[], [5]] 0 = some (0, [[5]])
    ∧ readFull 1 [[], [5]] 0 ≠ some (1, []) := by
  decide

/-- C6 (amended): only the strict variant (the readUntilEOF of the
status.go snapshot) tolerates a single empty read on the very first
attempt and continues; a repeated empty read before the buffer is full
fails it with unexpected-end-of-input; the capped variant (readFull)
instead ends its drain at the first empty read with a successful short
count. -/
theorem c6_theorem :
    (∀ (c : List Nat) (need : Nat) (rest : List (List Nat)),
      c.length = need → 0 < need →
        readUntilEOF need ([] :: c :: [] :: rest) = Except.ok (need, rest))
    ∧ (∀ (c : List Nat) (need : Nat) (rest : List (List Nat)),
      0 < c.length → c.length < need →
        readUntilEOF need (c :: [] :: rest) = Except.error ReadErr.unexpectedEOF)
    ∧ (∀ (need : Nat) (rest : List (List Nat)), 0 < need →
        readUntilEOF need ([] :: [] :: rest) = Except.error ReadErr.unexpectedEOF)
    ∧ (∀ (c : List Nat) (need : Nat) (rest : List (List Nat)),
      0 < c.length → c.length < need →
        readFull need (c :: [] :: rest) 0 = some (c.length, rest)) := by
  refine ⟨?_, ?_, ?_, ?_⟩
  · intro c need rest hc hpos
    subst hc
    have h0 : ¬ (0 = c.length) := by omega
    have hcl : ¬ (c.length = 0) := by omega
    have hmin : min c.length (c.length - 0) = c.length := by omega
    rw [readUntilEOF, readUntilEOFLoop]
    simp only [h0, if_false, List.length_nil]
    rw [readUntilEOFLoop]
    simp only [h0, if_false, hcl, if_false, hmin, Nat.zero_add]
    rw [readUntilEOFLoop]
    simp [checkTrailing]
  · intro c need rest hpos hlt
    have h0 : ¬ (0 = need) := by omega
    have hcl : ¬ (c.length = 0) := by omega
    have hmin : min c.length (need - 0) = c.length := by omega
    have hne : ¬ (c.length = need) := by omega
    rw [readUntilEOF, readUntilEOFLoop]
    simp only [h0, if_false, hcl, if_false, hmin, Nat.zero_add]
    rw [readUntilEOFLoop]
    simp [hne]
  · intro need rest hpos
    have h0 : ¬ (0 = need) := by omega
    rw [readUntilEOF, readUntilEOFLoop]
    simp only [h0, if_false, List.length_nil]
    rw [readUntilEOFLoop]
    simp [h0]
  · intro c need rest hpos hlt
    have h0 : ¬ (0 = need) := by omega
    have hcl : ¬ (c.length = 0) := by omega
    have hmin : min c.length (need - 0) = c.length := by omega
    have hne : ¬ (c.length = need) := by omega
    rw [readFull]
    simp only [h0, if_false, hcl, if_false, hmin, Nat.zero_add]
    rw [readFull]
    simp [hne]

/-- C6 witness: concrete drains exercising all four amended behaviors
(buffer size 1 or 2, one data byte 7). -/
theorem c6_witness :
    ([7] : List Nat).length = 1 ∧ (0 : Nat) < 1 ∧ (0 : Nat) < ([7] : List Nat).length
    ∧ ([7] : List Nat).length < 2
    ∧ readUntilEOF 1 ([] :: [7] :: [] :: []) = Except.ok (1, [])
    ∧ readUntilEOF 2 ([7] :: [] :: []) = Except.error ReadErr.unexpectedEOF
    ∧ readUntilEOF 1 ([] :: [] :: []) = Except.error ReadErr.unexpectedEOF
    ∧ readFull 2 ([7] :: [] :: []) 0 = some (([7] : List Nat).length, []) :=
  ⟨by decide, by decide, by decide, by decide,
    c6_theorem.1 [7] 1 [] (by decide) (by decide),
    c6_theorem.2.1 [7] 2 [] (by decide) (by decide),
    c6_theorem.2.2.1 1 [] (by decide),
    c6_theorem.2.2.2 [7] 2 [] (by decide) (by decide)⟩
